import Mathlib

/-!
Verification model of the account and credential lifecycle subsystem of the
drive-backend repository: the auth service (registration saga, password
recovery, TFA enrollment, login), the users service (profile store access),
the OTP/cipher service, and the Mongoose user schema.

External collaborators (Firebase identity provider, MongoDB driver, the
otplib TOTP library, node's AES-256-GCM primitive, Math.random, Date.now)
are modelled as explicit parameters/oracles, as the spec directs for
collaborator boundaries.  All byte sequences are `List Nat` with bytes
below 256.
-/

namespace DriveBackend

/-- Error taxonomy mirroring the NestJS `HttpException` subclasses the
services throw: `BadRequestException` (message, optional errorCode, optional
field-error list), `ConflictException`, `NotFoundException`,
`UnauthorizedException`, `InternalServerErrorException`. -/
inductive AppError where
  | badRequest (message : String) (errorCode : Option String) (errors : List String)
  | conflict (message : String) (errorCode : Option String)
  | notFound (message : String)
  | unauthorized (message : String)
  | internal (message : String)
deriving DecidableEq, Repr

/-- Truthiness of a JS optional string: `!x` is true when the value is
`null`/`undefined` or the empty string. -/
def jsFalsyOptStr : Option String → Bool
  | none => true
  | some s => s = ""

/-- Lowercasing of one character (ASCII range), as the JS toLowerCase
builtin behaves on the inputs of this subsystem. -/
def lowerChar (c : Char) : Char :=
  if 65 ≤ c.toNat ∧ c.toNat ≤ 90 then Char.ofNat (c.toNat + 32) else c

/-- Model of the JS toLowerCase builtin. -/
def lowerStr (s : String) : String := String.mk (s.data.map lowerChar)

/-- Whitespace stripped by the JS trim builtin. -/
def isWsChar (c : Char) : Bool :=
  c.toNat = 32 ∨ c.toNat = 9 ∨ c.toNat = 10 ∨ c.toNat = 13

/-- Model of the JS trim builtin. -/
def trimStr (s : String) : String :=
  String.mk (((s.data.dropWhile isWsChar).reverse.dropWhile isWsChar).reverse)

/-- Splitting a character list at a separator character, as the JS split
builtin. -/
def splitOnChar (sep : Char) : List Char → List (List Char)
  | [] => [[]]
  | c :: rest =>
      if c = sep then [] :: splitOnChar sep rest
      else
        match splitOnChar sep rest with
        | [] => [[c]]
        | p :: ps => (c :: p) :: ps

/-! ## Base64 (model of node Buffer base64 encoding, RFC 4648 with padding)

`Buffer.toString('base64')` and `Buffer.from(s, 'base64')` are node
builtins used by `otp-authenticator.service.ts`; they are modelled here as
the standard base64 alphabet encoding of byte lists, with `=` (61) padding.
Only canonical tokens matter for the claims: the service decodes exactly
the strings it previously encoded. -/

def b64alphabet : List Nat :=
  (List.range 26).map (· + 65) ++ (List.range 26).map (· + 97) ++
    (List.range 10).map (· + 48) ++ [43, 47]

/-- Character (byte value) for a 6-bit group. -/
def encChar (n : Nat) : Nat := b64alphabet.getD n 0

def decCharAux : List Nat → Nat → Nat → Option Nat
  | [], _, _ => none
  | a :: rest, i, c => if a = c then some i else decCharAux rest (i + 1) c

/-- Index of a byte value in the base64 alphabet. -/
def decChar (c : Nat) : Option Nat := decCharAux b64alphabet 0 c

/-- Base64-encode a byte list (groups of 3 bytes to 4 characters, padding
byte 61). -/
def b64encode : List Nat → List Nat
  | [] => []
  | [b1] => [encChar (b1 / 4), encChar (b1 % 4 * 16), 61, 61]
  | [b1, b2] =>
      [encChar (b1 / 4), encChar (b1 % 4 * 16 + b2 / 16), encChar (b2 % 16 * 4), 61]
  | b1 :: b2 :: b3 :: rest =>
      encChar (b1 / 4) :: encChar (b1 % 4 * 16 + b2 / 16) ::
        encChar (b2 % 16 * 4 + b3 / 64) :: encChar (b3 % 64) :: b64encode rest

/-- Base64-decode a canonical base64 byte list. -/
def b64decode : List Nat → Option (List Nat)
  | [] => some []
  | c1 :: c2 :: c3 :: c4 :: rest =>
      if c3 = 61 ∧ c4 = 61 ∧ rest = [] then
        match decChar c1, decChar c2 with
        | some n1, some n2 => some [n1 * 4 + n2 / 16]
        | _, _ => none
      else if c4 = 61 ∧ rest = [] then
        match decChar c1, decChar c2, decChar c3 with
        | some n1, some n2, some n3 =>
            some [n1 * 4 + n2 / 16, n2 % 16 * 16 + n3 / 4]
        | _, _, _ => none
      else
        match decChar c1, decChar c2, decChar c3, decChar c4, b64decode rest with
        | some n1, some n2, some n3, some n4, some bs =>
            some ((n1 * 4 + n2 / 16) :: (n2 % 16 * 16 + n3 / 4) ::
              (n3 % 4 * 64 + n4) :: bs)
        | _, _, _, _, _ => none
  | _ => none

/-- Splitting a byte list at dots (46), mirroring `payload.split('.')` in
`maybeDecrypt`. -/
def splitDots : List Nat → List (List Nat)
  | [] => [[]]
  | c :: rest =>
      if c = 46 then [] :: splitDots rest
      else
        match splitDots rest with
        | [] => [[c]]
        | p :: ps => (c :: p) :: ps

/-! ## SecretCipher (otp-authenticator.service.ts)

The AES-256-GCM primitive (`createCipheriv`/`createDecipheriv`) is a node
builtin; it is modelled as an abstract scheme: `enc key iv plain` returns
the ciphertext/tag pair and `dec key iv tag ct` returns the recovered
plaintext or `none` on any cryptographic failure (bad tag).  The service
code around it is translated literally. -/

structure AeadScheme where
  enc : List Nat → List Nat → List Nat → List Nat × List Nat
  dec : List Nat → List Nat → List Nat → List Nat → Option (List Nat)

/-- Translation of `encryptIfConfigured`: with no key, the plaintext is
returned unchanged; with a key, a fresh iv (oracle parameter, 12 random
bytes in the source) is used and the token
`base64(iv) ++ "." ++ base64(tag) ++ "." ++ base64(ct)` is produced. -/
def encryptIfConfigured (A : AeadScheme) (key : Option (List Nat))
    (iv : List Nat) (plain : List Nat) : List Nat :=
  match key with
  | none => plain
  | some k =>
      let e := A.enc k iv plain
      b64encode iv ++ 46 :: b64encode e.2 ++ 46 :: b64encode e.1

/-- Translation of `maybeDecrypt`: empty payload is returned as is; a
payload that does not split into exactly three dot-separated parts is
returned as is; with no key the payload is returned as is; otherwise the
three segments are base64-decoded and AEAD-decrypted, and any failure
falls back to returning the payload unchanged. -/
def maybeDecrypt (A : AeadScheme) (key : Option (List Nat))
    (payload : List Nat) : List Nat :=
  if payload = [] then payload
  else
    match splitDots payload, key with
    | [p1, p2, p3], some k =>
        match b64decode p1, b64decode p2, b64decode p3 with
        | some iv, some tag, some ct =>
            match A.dec k iv tag ct with
            | some plain => plain
            | none => payload
        | _, _, _ => payload
    | _, _ => payload

/-- Concrete executable AEAD instance used to witness the round-trip
theorems: a byte-shift cipher with a constant tag. -/
def shiftScheme : AeadScheme where
  enc := fun _ _ p => (p.map (fun b => (b + 1) % 256), [7])
  dec := fun _ _ tag ct =>
    if tag = [7] then some (ct.map (fun b => (b + 255) % 256)) else none

/-! ## Data model

`UserProfile` models the user document as the services manipulate it in
TypeScript (`users.service.ts`, `auth.service.ts`): the declared schema
fields plus the TFA fields the auth service reads and writes on the
document object.  Timestamps are `Nat` milliseconds. -/

structure UserProfile where
  firebaseUid : String
  email : String
  username : String
  fullName : String
  phone : Option String := none
  role : String := "free"
  resetPasswordCode : Option String := none
  resetPasswordExpires : Option Nat := none
  tfaSecret : Option String := none
  isTfaEnabled : Option Bool := none
deriving DecidableEq, Repr

/-- Mongoose schema property declaration, as written with `@Prop` in
`user.schema.ts`. -/
structure SchemaProp where
  name : String
  required : Bool := false
  unique : Bool := false
  indexed : Bool := false
  lowercase : Bool := false
  selectExcluded : Bool := false
  defaultValue : Option String := none
deriving DecidableEq, Repr

/-- Translation of the `User` class of `user.schema.ts`: the complete list
of properties declared on the persisted `users` collection. -/
def userSchemaProps : List SchemaProp :=
  [ { name := "firebaseUid", required := true, unique := true, indexed := true },
    { name := "email", required := true, unique := true, indexed := true,
      lowercase := true },
    { name := "username", required := true, unique := true, indexed := true,
      lowercase := true },
    { name := "fullName", required := true },
    { name := "phone" },
    { name := "role", defaultValue := some "free" },
    { name := "resetPasswordCode", selectExcluded := true },
    { name := "resetPasswordExpires", selectExcluded := true } ]

def userSchemaFieldNames : List String := userSchemaProps.map SchemaProp.name

/-- Firebase `UserRecord` as consumed by the auth service. -/
structure UserRecord where
  uid : String
  email : Option String := none
  displayName : Option String := none
deriving DecidableEq, Repr

/-! ## Register DTO and validation (dto/register.dto.ts) -/

structure RegisterUserDto where
  email : String
  password : String
  confirmPassword : String
  fullName : String
  username : String
  phone : Option String := none
deriving DecidableEq, Repr

/-- The class-transformer `@Transform` decorators applied by
`plainToInstance`: email and username are trimmed and lowercased, phone is
trimmed. -/
def transformDto (d : RegisterUserDto) : RegisterUserDto :=
  { d with
    email := lowerStr (trimStr d.email)
    username := lowerStr (trimStr d.username)
    phone := d.phone.map trimStr }

/-- Modelled from the spec: the class-validator `IsEmail` check is library
code that is not part of this repository; the spec asks for a well-formed
email, modelled as one local part and one domain containing a dot. -/
def isWellFormedEmail (s : String) : Bool :=
  match splitOnChar (Char.ofNat 64) s.data with
  | [l, d] => !l.isEmpty && !d.isEmpty && d.contains (Char.ofNat 46)
  | _ => false

/-- Constraint-violation messages collected by `validateOrReject` over the
decorators of `RegisterUserDto`, in property declaration order.  Note that
no decorator compares `password` with `confirmPassword`. -/
def validateRegisterDto (d : RegisterUserDto) : List String :=
  (if isWellFormedEmail d.email then []
   else ["El correo electrónico no es válido."]) ++
  (if d.email.isEmpty then ["email should not be empty"] else []) ++
  (if d.password.length ≥ 8 then []
   else ["La contraseña debe tener al menos 8 caracteres."]) ++
  (if d.confirmPassword.length ≥ 8 then []
   else ["La contraseña debe tener al menos 8 caracteres."]) ++
  (if d.fullName.isEmpty then ["fullName should not be empty"] else []) ++
  (if d.username.isEmpty then ["username should not be empty"] else []) ++
  (if 3 ≤ d.username.length ∧ d.username.length ≤ 30 then []
   else ["El nombre de usuario debe tener entre 3 y 30 caracteres."])

/-! ## Users service (users.service.ts) -/

/-- Outcome of the Mongoose `save()` call inside `createProfile`: success,
a duplicate-key error (code 11000) on the named indexed field, or another
database error.  Oracle for the MongoDB collaborator. -/
inductive MongoSaveResult where
  | ok
  | dupKey (field : String)
  | dbError (message : String)
deriving DecidableEq, Repr

/-- Translation of `UsersService.createProfile`: builds the profile data
(lowercasing email and username), saves it, and wraps driver errors:
code 11000 becomes `ConflictException`, anything else becomes
`InternalServerErrorException`. -/
def createProfile (firebaseUid email : String) (dto : RegisterUserDto)
    (save : MongoSaveResult) : Except AppError UserProfile :=
  let profileData : UserProfile :=
    { firebaseUid := firebaseUid
      email := lowerStr email
      username := lowerStr dto.username
      fullName := dto.fullName
      phone := dto.phone }
  match save with
  | .ok => .ok profileData
  | .dupKey field => .error (.conflict ("El " ++ field ++ " ya está en uso.") none)
  | .dbError m => .error (.internal ("Error al insertar en MongoDB: " ++ m))

/-- Translation of `UsersService.findProfileByEmail`. -/
def findProfileByEmail (db : List UserProfile) (email : String) :
    Option UserProfile :=
  db.find? (fun u => u.email = lowerStr email)

/-- Translation of `UsersService.findOneByUid`. -/
def findOneByUid (db : List UserProfile) (firebaseUid : String) :
    Option UserProfile :=
  db.find? (fun u => u.firebaseUid = firebaseUid)

/-- Translation of `UsersService.updateProfileByFirebaseUid`: finds the
profile by uid, applies the `$set` update, and returns the updated profile
and store; `NotFoundException` when the uid is absent. -/
def updateProfileByFirebaseUid (db : List UserProfile) (firebaseUid : String)
    (upd : UserProfile → UserProfile) :
    Except AppError (UserProfile × List UserProfile) :=
  match db.find? (fun u => u.firebaseUid = firebaseUid) with
  | none =>
      .error (.notFound ("Perfil con UID " ++ firebaseUid ++ " no encontrado."))
  | some u =>
      let u2 := upd u
      .ok (u2, db.map (fun v => if v.firebaseUid = firebaseUid then u2 else v))

/-- Translation of `UsersService.isUsernameTaken` over the modelled store. -/
def isUsernameTaken (db : List UserProfile) (username : String) : Bool :=
  if username = "" then false
  else (db.find? (fun u => u.username = lowerStr username)).isSome

/-- Translation of `UsersService.generatePasswordReset`: finds the profile
by lowercased email (throwing `NotFoundException` when absent), then sets a
6-digit code and a one-hour expiry and saves.  The random code and the
current time are oracle parameters (`rnd` below 900000 models
`Math.random()*900000`). -/
def generatePasswordReset (db : List UserProfile) (email : String)
    (rnd : Nat) (now : Nat) : Except AppError (UserProfile × List UserProfile) :=
  match db.find? (fun u => u.email = lowerStr email) with
  | none => .error (.notFound "Usuario no encontrado.")
  | some user =>
      let code := toString (100000 + rnd % 900000)
      let user2 := { user with
        resetPasswordCode := some code
        resetPasswordExpires := some (now + 60 * 60 * 1000) }
      .ok (user2, db.map (fun v => if v.firebaseUid = user.firebaseUid then user2 else v))

/-! ## Response types (common/types/response.types.ts) -/

structure PasswordRequestResponse where
  success : Bool
  message : String
deriving DecidableEq, Repr

structure PasswordResetResponse where
  success : Bool
  message : String
deriving DecidableEq, Repr

structure TfaGenerateResponse where
  uri : String
  secret : Option String := none
deriving DecidableEq, Repr

structure TfaConfirmResponse where
  success : Bool
  message : String
deriving DecidableEq, Repr

structure AuthLoginResponse where
  tfaRequired : Bool
  token : Option String
  authenticated : Bool
deriving DecidableEq, Repr

/-! ## Registration saga (AuthService.registerUser) -/

/-- Oracle for `firebaseAdmin.auth.createUser`: success with the created
record, the provider-reported duplicate-email error
(`auth/email-already-exists`), or any other provider failure. -/
inductive FirebaseCreateResult where
  | ok (record : UserRecord)
  | emailExists
  | otherError
deriving DecidableEq, Repr

/-- Collaborator outcomes consumed by one `registerUser` call. -/
structure RegisterEnv where
  usernameTaken : Bool
  firebaseCreate : FirebaseCreateResult
  mongoSave : MongoSaveResult
  deleteSucceeds : Bool
deriving DecidableEq, Repr

deriving instance DecidableEq for Except

/-- Result of `registerUser` together with the list of uids passed to
compensating `firebaseAdmin.auth.deleteUser` calls. -/
structure RegisterOutcome where
  result : Except AppError (String × Option String)
  deletedUids : List String
deriving DecidableEq, Repr

/-- Translation of `AuthService.registerUser`: transform and validate the
DTO (BadRequestException listing every violated constraint), then the
best-effort username-uniqueness pre-check (ConflictException
`username_taken`), then the password/confirmPassword comparison
(BadRequestException `password_mismatch`), then Firebase account creation
(ConflictException `email_exists` on duplicate email, otherwise
InternalServerErrorException), then profile creation; when profile
creation fails one compensating `deleteUser` is issued (its own failure is
swallowed by the empty catch block) and the insertion error is rethrown
when it is an HttpException — which every `createProfile` error is. -/
def registerUser (dto : RegisterUserDto) (env : RegisterEnv) : RegisterOutcome :=
  let dtoInstance := transformDto dto
  let errs := validateRegisterDto dtoInstance
  if errs ≠ [] then
    { result := .error (.badRequest "Validación fallida" none errs), deletedUids := [] }
  else if dtoInstance.username ≠ "" && env.usernameTaken then
    { result := .error (.conflict "El nombre de usuario ya está en uso."
        (some "username_taken")), deletedUids := [] }
  else if dto.password ≠ dto.confirmPassword then
    { result := .error (.badRequest "Las contraseñas no coinciden."
        (some "password_mismatch") []), deletedUids := [] }
  else
    match env.firebaseCreate with
    | .emailExists =>
        { result := .error (.conflict "El correo electrónico ya está registrado."
            (some "email_exists")), deletedUids := [] }
    | .otherError =>
        { result := .error (.internal "Error al crear usuario."), deletedUids := [] }
    | .ok record =>
        match createProfile record.uid (record.email.getD "") dto env.mongoSave with
        | .ok _ => { result := .ok (record.uid, record.email), deletedUids := [] }
        | .error mongoError =>
            { result := .error mongoError, deletedUids := [record.uid] }

/-! ## Password recovery (AuthService) -/

/-- Translation of `AuthService.requestPasswordReset`: delegates to
`generatePasswordReset` and sends the recovery email; every error raised
inside the try block — including the `NotFoundException` thrown by
`generatePasswordReset` for an unknown email — is caught and rethrown as
`InternalServerErrorException`; on success the fixed public message is
returned.  `emailOk` is the oracle for the email collaborator. -/
def requestPasswordReset (db : List UserProfile) (email : String)
    (rnd now : Nat) (emailOk : Bool) :
    Except AppError PasswordRequestResponse × List UserProfile :=
  let publicResponse : PasswordRequestResponse :=
    { success := true
      message := "Si el correo está registrado, se ha enviado un código de recuperación." }
  match generatePasswordReset db email rnd now with
  | .error _ =>
      (.error (.internal "Error al procesar la solicitud de recuperación de contraseña."), db)
  | .ok (_, db2) =>
      if emailOk then (.ok publicResponse, db2)
      else
        (.error (.internal "Error al procesar la solicitud de recuperación de contraseña."), db2)

structure PasswordResetDto where
  email : String
  code : String
  newPassword : String
  confirmNewPassword : String
deriving DecidableEq, Repr

/-- Translation of `AuthService.resetPassword`: profile lookup by email
(NotFoundException), stored-code presence and string equality
(BadRequestException), expiry against the current time (a missing expiry
counts as 0, BadRequestException when past), new-password confirmation
(BadRequestException), then the Firebase password update
(`InternalServerErrorException` on provider failure, issued before any
profile mutation), and finally the clearing of `resetPasswordCode` and
`resetPasswordExpires`.  Returns the result and the resulting store. -/
def resetPassword (db : List UserProfile) (dto : PasswordResetDto)
    (now : Nat) (fbUpdateOk : Bool) :
    Except AppError PasswordResetResponse × List UserProfile :=
  match findProfileByEmail db dto.email with
  | none => (.error (.notFound "Usuario no encontrado."), db)
  | some user =>
      if jsFalsyOptStr user.resetPasswordCode ∨
          user.resetPasswordCode.getD "" ≠ dto.code then
        (.error (.badRequest "Código inválido." none []), db)
      else
        let expiresAt := user.resetPasswordExpires.getD 0
        if expiresAt < now then
          (.error (.badRequest "El código ha expirado." none []), db)
        else if dto.newPassword ≠ dto.confirmNewPassword then
          (.error (.badRequest "La nueva contraseña y su confirmación no coinciden."
              none []), db)
        else if !fbUpdateOk then
          (.error (.internal "No se pudo actualizar la contraseña."), db)
        else
          match updateProfileByFirebaseUid db user.firebaseUid
              (fun u => { u with resetPasswordCode := none, resetPasswordExpires := none }) with
          | .error e => (.error e, db)
          | .ok (_, db2) =>
              (.ok { success := true, message := "Contraseña reseteada con éxito." }, db2)

/-! ## TFA enrollment (AuthService) -/

/-- Translation of `AuthService.generateTfaSecretForUser`: decode the
bearer token (oracle `tokenUser`, `UnauthorizedException` when invalid),
resolve the profile (NotFoundException), reject when TFA is already
enabled (BadRequestException), then persist the freshly generated
(encrypted) secret — `uri` and `secret` are oracles for
`generateSecretAuthenticator` — and return both. -/
def generateTfaSecretForUser (db : List UserProfile)
    (tokenUser : Option UserRecord) (uri secret : String) :
    Except AppError TfaGenerateResponse × List UserProfile :=
  match tokenUser with
  | none => (.error (.unauthorized "Token inválido o expirado"), db)
  | some record =>
      match findOneByUid db record.uid with
      | none => (.error (.notFound "Usuario no encontrado"), db)
      | some profile =>
          if profile.isTfaEnabled.getD false then
            (.error (.badRequest "TFA ya está habilitado para este usuario" none []), db)
          else
            match updateProfileByFirebaseUid db profile.firebaseUid
                (fun u => { u with tfaSecret := some secret }) with
            | .error e => (.error e, db)
            | .ok (_, db2) => (.ok { uri := uri, secret := some secret }, db2)

/-- Translation of `AuthService.confirmTfaForUser`: empty code rejected
first, then token decoding, then the profile must exist and hold a truthy
`tfaSecret` (otherwise BadRequestException, TFA not started), then the
TOTP verification (oracle `verifyOk`; BadRequestException on failure), and
on success `isTfaEnabled` is set to true. -/
def confirmTfaForUser (db : List UserProfile) (tokenUser : Option UserRecord)
    (code : String) (verifyOk : Bool) :
    Except AppError TfaConfirmResponse × List UserProfile :=
  if code = "" then
    (.error (.badRequest "El código TFA es obligatorio" none []), db)
  else
    match tokenUser with
    | none => (.error (.unauthorized "Token inválido o expirado"), db)
    | some record =>
        match findOneByUid db record.uid with
        | none => (.error (.badRequest "TFA no iniciado para este usuario" none []), db)
        | some profile =>
            if jsFalsyOptStr profile.tfaSecret then
              (.error (.badRequest "TFA no iniciado para este usuario" none []), db)
            else if !verifyOk then
              (.error (.badRequest "Código TFA inválido" none []), db)
            else
              match updateProfileByFirebaseUid db profile.firebaseUid
                  (fun u => { u with isTfaEnabled := some true }) with
              | .error e => (.error e, db)
              | .ok (_, db2) =>
                  (.ok { success := true, message := "TFA habilitado" }, db2)

/-! ## Login (AuthService.login) -/

/-- Translation of `AuthService.login`: decode the bearer token (oracle;
any failure in the try block becomes `UnauthorizedException`), look the
profile up by uid, and branch on the truthiness of `user?.isTfaEnabled` —
a missing profile or a missing flag is falsy.  `customToken` is the oracle
for `createCustomToken`; its failure is also caught as
`UnauthorizedException`. -/
def login (db : List UserProfile) (tokenUser : Option UserRecord)
    (customToken : Except Unit String) : Except AppError AuthLoginResponse :=
  match tokenUser with
  | none => .error (.unauthorized "Token inválido o expirado")
  | some record =>
      let user := findOneByUid db record.uid
      if (user.map (fun u => u.isTfaEnabled.getD false)).getD false then
        .ok { tfaRequired := true, token := none, authenticated := false }
      else
        match customToken with
        | .ok t => .ok { tfaRequired := false, token := some t, authenticated := true }
        | .error _ => .error (.unauthorized "Token inválido o expirado")

/-! ## Concrete fixtures used by witnesses and counterexamples -/

/-- Structurally valid registration payload (scenario of the spec). -/
def dtoOk : RegisterUserDto :=
  { email := "a@x.com", password := "password1", confirmPassword := "password1",
    fullName := "Alice A", username := "alice" }

/-- Structurally valid payload except that the passwords mismatch. -/
def dtoMismatch : RegisterUserDto :=
  { email := "a@x.com", password := "password1", confirmPassword := "password2",
    fullName := "Alice A", username := "alice" }

/-- Environment where the profile insertion hits the duplicate-key error
and the compensating delete fails. -/
def envRollbackFail : RegisterEnv :=
  { usernameTaken := false,
    firebaseCreate := .ok { uid := "uid1", email := some "a@x.com" },
    mongoSave := .dupKey "username", deleteSucceeds := false }

/-- Environment where the profile insertion fails and the delete succeeds. -/
def envInsertFail : RegisterEnv :=
  { usernameTaken := false,
    firebaseCreate := .ok { uid := "uid1", email := some "a@x.com" },
    mongoSave := .dbError "boom", deleteSucceeds := true }

/-- Environment where the username pre-check reports the name taken. -/
def envTaken : RegisterEnv :=
  { usernameTaken := true, firebaseCreate := .otherError,
    mongoSave := .ok, deleteSucceeds := true }

/-- A stored profile with no TFA state and no pending reset code. -/
def profileAlice : UserProfile :=
  { firebaseUid := "uid1", email := "a@x.com", username := "alice",
    fullName := "Alice A" }

/-- The same profile with a pending recovery code. -/
def profileWithCode : UserProfile :=
  { profileAlice with
    resetPasswordCode := some "123456"
    resetPasswordExpires := some 1000 }

/-- The same profile with TFA enabled. -/
def profileEnabled : UserProfile :=
  { profileAlice with tfaSecret := some "S3CRET", isTfaEnabled := some true }

/-- A valid confirm-reset payload matching `profileWithCode`. -/
def resetDto : PasswordResetDto :=
  { email := "a@x.com", code := "123456", newPassword := "newpass123",
    confirmNewPassword := "newpass123" }

/-! ## Helper lemmas about base64 and dot-splitting -/

theorem decChar_encChar_fin : ∀ n : Fin 64, decChar (encChar n.val) = some n.val := by
  decide

theorem decChar_encChar {n : Nat} (h : n < 64) : decChar (encChar n) = some n :=
  decChar_encChar_fin ⟨n, h⟩

theorem encChar_ne_fin : ∀ n : Fin 64, encChar n.val ≠ 46 ∧ encChar n.val ≠ 61 := by
  decide

theorem encChar_ne (n : Nat) : encChar n ≠ 46 ∧ encChar n ≠ 61 := by
  by_cases h : n < 64
  · exact encChar_ne_fin ⟨n, h⟩
  · have hlen : b64alphabet.length = 64 := by decide
    have h0 : encChar n = 0 := by
      unfold encChar
      exact List.getD_eq_default _ _ (by omega)
    rw [h0]
    exact ⟨by omega, by omega⟩

theorem b64encode_ne_dot (bs : List Nat) : ∀ c ∈ b64encode bs, c ≠ 46 := by
  induction bs using b64encode.induct with
  | case1 =>
      intro c hc
      simp [b64encode] at hc
  | case2 b1 =>
      intro c hc
      simp [b64encode] at hc
      rcases hc with h | h | h <;> subst h
      · exact (encChar_ne _).1
      · exact (encChar_ne _).1
      · omega
  | case3 b1 b2 =>
      intro c hc
      simp [b64encode] at hc
      rcases hc with h | h | h | h <;> subst h
      · exact (encChar_ne _).1
      · exact (encChar_ne _).1
      · exact (encChar_ne _).1
      · omega
  | case4 b1 b2 b3 rest ih =>
      intro c hc
      simp [b64encode] at hc
      rcases hc with h | h | h | h | h
      · subst h; exact (encChar_ne _).1
      · subst h; exact (encChar_ne _).1
      · subst h; exact (encChar_ne _).1
      · subst h; exact (encChar_ne _).1
      · exact ih c h

theorem splitDots_no_dot {a : List Nat} (h : ∀ c ∈ a, c ≠ 46) :
    splitDots a = [a] := by
  induction a with
  | nil => rfl
  | cons c rest ih =>
      have hc : c ≠ 46 := h c (List.mem_cons_self c rest)
      have hr : splitDots rest = [rest] := ih (fun x hx => h x (List.mem_cons_of_mem c hx))
      simp [splitDots, hc, hr]

theorem splitDots_append {a : List Nat} (t : List Nat) (h : ∀ c ∈ a, c ≠ 46) :
    splitDots (a ++ 46 :: t) = a :: splitDots t := by
  induction a with
  | nil => simp [splitDots]
  | cons c rest ih =>
      have hc : c ≠ 46 := h c (List.mem_cons_self c rest)
      have hr := ih (fun x hx => h x (List.mem_cons_of_mem c hx))
      simp [splitDots, hc, hr]

theorem b64decode_pad2 {c1 c2 n1 n2 : Nat} (h1 : decChar c1 = some n1)
    (h2 : decChar c2 = some n2) :
    b64decode [c1, c2, 61, 61] = some [n1 * 4 + n2 / 16] := by
  simp [b64decode, h1, h2]

theorem b64decode_pad1 {c1 c2 c3 n1 n2 n3 : Nat} (h1 : decChar c1 = some n1)
    (h2 : decChar c2 = some n2) (h3 : decChar c3 = some n3) (hne : c3 ≠ 61) :
    b64decode [c1, c2, c3, 61] = some [n1 * 4 + n2 / 16, n2 % 16 * 16 + n3 / 4] := by
  simp [b64decode, h1, h2, h3, hne]

theorem b64decode_full {c1 c2 c3 c4 n1 n2 n3 n4 : Nat} {rest : List Nat}
    {bs : List Nat} (h1 : decChar c1 = some n1) (h2 : decChar c2 = some n2)
    (h3 : decChar c3 = some n3) (h4 : decChar c4 = some n4)
    (hrest : b64decode rest = some bs) (h3ne : c3 ≠ 61) (h4ne : c4 ≠ 61) :
    b64decode (c1 :: c2 :: c3 :: c4 :: rest) =
      some ((n1 * 4 + n2 / 16) :: (n2 % 16 * 16 + n3 / 4) ::
        (n3 % 4 * 64 + n4) :: bs) := by
  simp [b64decode, h1, h2, h3, h4, hrest, h3ne, h4ne]

theorem b64_roundtrip (bs : List Nat) (h : ∀ b ∈ bs, b < 256) :
    b64decode (b64encode bs) = some bs := by
  induction bs using b64encode.induct with
  | case1 => rfl
  | case2 b1 =>
      have hb1 : b1 < 256 := h b1 (by simp)
      have h1 : b1 / 4 < 64 := by omega
      have h2 : b1 % 4 * 16 < 64 := by omega
      rw [show b64encode [b1] = [encChar (b1 / 4), encChar (b1 % 4 * 16), 61, 61]
          from rfl,
        b64decode_pad2 (decChar_encChar h1) (decChar_encChar h2)]
      simp only [Option.some.injEq, List.cons.injEq, and_true]
      omega
  | case3 b1 b2 =>
      have hb1 : b1 < 256 := h b1 (by simp)
      have hb2 : b2 < 256 := h b2 (by simp)
      have h1 : b1 / 4 < 64 := by omega
      have h2 : b1 % 4 * 16 + b2 / 16 < 64 := by omega
      have h3 : b2 % 16 * 4 < 64 := by omega
      rw [show b64encode [b1, b2] = [encChar (b1 / 4),
            encChar (b1 % 4 * 16 + b2 / 16), encChar (b2 % 16 * 4), 61] from rfl,
        b64decode_pad1 (decChar_encChar h1) (decChar_encChar h2)
          (decChar_encChar h3) (encChar_ne _).2]
      simp only [Option.some.injEq, List.cons.injEq, and_true]
      omega
  | case4 b1 b2 b3 rest ih =>
      have hb1 : b1 < 256 := h b1 (by simp)
      have hb2 : b2 < 256 := h b2 (by simp)
      have hb3 : b3 < 256 := h b3 (by simp)
      have h1 : b1 / 4 < 64 := by omega
      have h2 : b1 % 4 * 16 + b2 / 16 < 64 := by omega
      have h3 : b2 % 16 * 4 + b3 / 64 < 64 := by omega
      have h4 : b3 % 64 < 64 := by omega
      have hrest := ih (fun b hb => h b (by simp [hb]))
      rw [show b64encode (b1 :: b2 :: b3 :: rest) = encChar (b1 / 4) ::
            encChar (b1 % 4 * 16 + b2 / 16) :: encChar (b2 % 16 * 4 + b3 / 64) ::
            encChar (b3 % 64) :: b64encode rest from rfl,
        b64decode_full (decChar_encChar h1) (decChar_encChar h2)
          (decChar_encChar h3) (decChar_encChar h4) hrest
          (encChar_ne _).2 (encChar_ne _).2]
      simp only [Option.some.injEq, List.cons.injEq, and_true]
      omega

theorem maybeDecrypt_eq (A : AeadScheme) (k : List Nat) (payload p1 p2 p3 iv tag ct x : List Nat)
    (hne : payload ≠ []) (hsplit : splitDots payload = [p1, p2, p3])
    (h1 : b64decode p1 = some iv) (h2 : b64decode p2 = some tag)
    (h3 : b64decode p3 = some ct) (hdec : A.dec k iv tag ct = some x) :
    maybeDecrypt A (some k) payload = x := by
  unfold maybeDecrypt
  simp only [if_neg hne, hsplit, h1, h2, h3, hdec]

/-- Claim C4: with an encryption key configured, decrypting the result of
encrypting a plaintext returns the plaintext.  The AES-256-GCM node
primitive is abstract (`AeadScheme`); its pointwise correctness at the
plaintext, and the byte-boundedness of the iv/tag/ciphertext buffers, are
the hypotheses that node guarantees.  The service layer — token assembly
as dot-separated base64 segments in `encryptIfConfigured` and parsing and
fallback in `maybeDecrypt` — is what is verified here. -/
theorem cipher_roundtrip (A : AeadScheme) (k iv x : List Nat)
    (hiv : ∀ b ∈ iv, b < 256)
    (htag : ∀ b ∈ (A.enc k iv x).2, b < 256)
    (hct : ∀ b ∈ (A.enc k iv x).1, b < 256)
    (hdec : A.dec k iv (A.enc k iv x).2 (A.enc k iv x).1 = some x) :
    maybeDecrypt A (some k) (encryptIfConfigured A (some k) iv x) = x := by
  have happ : encryptIfConfigured A (some k) iv x =
      b64encode iv ++ 46 :: (b64encode (A.enc k iv x).2 ++ 46 ::
        b64encode (A.enc k iv x).1) := by
    simp [encryptIfConfigured, List.append_assoc]
  rw [happ]
  exact maybeDecrypt_eq A k _ _ _ _ iv (A.enc k iv x).2 (A.enc k iv x).1 x
    (by simp)
    (by rw [splitDots_append _ (b64encode_ne_dot iv),
          splitDots_append _ (b64encode_ne_dot _),
          splitDots_no_dot (b64encode_ne_dot _)])
    (b64_roundtrip iv hiv) (b64_roundtrip _ htag) (b64_roundtrip _ hct) hdec

/-- Witness for C4 at a concrete scheme, key, iv and plaintext. -/
theorem cipher_roundtrip_witness :
    (∀ b ∈ [2, 3], b < 256) ∧
    (∀ b ∈ (shiftScheme.enc [1] [2, 3] [72, 105]).2, b < 256) ∧
    (∀ b ∈ (shiftScheme.enc [1] [2, 3] [72, 105]).1, b < 256) ∧
    shiftScheme.dec [1] [2, 3] (shiftScheme.enc [1] [2, 3] [72, 105]).2
      (shiftScheme.enc [1] [2, 3] [72, 105]).1 = some [72, 105] ∧
    maybeDecrypt shiftScheme (some [1])
      (encryptIfConfigured shiftScheme (some [1]) [2, 3] [72, 105]) = [72, 105] :=
  ⟨by decide, by decide, by decide, by decide,
    cipher_roundtrip shiftScheme [1] [2, 3] [72, 105]
      (by decide) (by decide) (by decide) (by decide)⟩

/-- Claim C9: with no encryption key configured, the secret cipher is the
identity in both directions — `encryptIfConfigured` returns the plaintext
unchanged and `maybeDecrypt` returns its payload unchanged. -/
theorem cipher_degraded_identity (A : AeadScheme) (iv x : List Nat) :
    encryptIfConfigured A none iv x = x ∧ maybeDecrypt A none x = x := by
  constructor
  · rfl
  · unfold maybeDecrypt
    split
    · rfl
    · split
      · rename_i heq
        simp at heq
      · rfl

/-! ## Claim C1 — enumeration safety of requestPasswordReset -/

/-- Claim C1 (refuted, code bug): the two responses are not identical —
for an email with no registered profile, `generatePasswordReset` throws
`NotFoundException`, which the catch-all in `requestPasswordReset` rethrows
as `InternalServerErrorException`, while an email with a profile gets the
generic success message.  The code contradicts its own doc comment, which
promises a public message that does not reveal whether the email exists. -/
theorem requestPasswordReset_enumeration_leak :
    (requestPasswordReset [] "ghost@x.com" 0 0 true).1 =
      .error (.internal "Error al procesar la solicitud de recuperación de contraseña.") ∧
    (requestPasswordReset [profileAlice] "a@x.com" 0 0 true).1 =
      .ok { success := true,
            message := "Si el correo está registrado, se ha enviado un código de recuperación." } := by
  constructor <;> rfl

/-! ## Claim C2 — saga compensation -/

/-- Claim C2: once the Firebase account has been created, a failed profile
insertion triggers exactly one compensating `deleteUser` call for the new
uid, and a successful insertion triggers none. -/
theorem registerUser_compensation (dto : RegisterUserDto) (env : RegisterEnv)
    (record : UserRecord)
    (hval : validateRegisterDto (transformDto dto) = [])
    (hfree : env.usernameTaken = false)
    (hpw : dto.password = dto.confirmPassword)
    (hfb : env.firebaseCreate = .ok record) :
    (env.mongoSave = .ok → (registerUser dto env).deletedUids = []) ∧
    (env.mongoSave ≠ .ok → (registerUser dto env).deletedUids = [record.uid]) := by
  constructor
  · intro hok
    simp [registerUser, hval, hfree, hpw, hfb, hok, createProfile]
  · intro hne
    cases hsave : env.mongoSave with
    | ok => exact absurd hsave hne
    | dupKey f => simp [registerUser, hval, hfree, hpw, hfb, hsave, createProfile]
    | dbError m => simp [registerUser, hval, hfree, hpw, hfb, hsave, createProfile]

/-- Witness for C2: concrete registration where the insertion fails with a
database error; exactly the created uid is deleted. -/
theorem registerUser_compensation_witness :
    validateRegisterDto (transformDto dtoOk) = [] ∧
    envInsertFail.usernameTaken = false ∧
    dtoOk.password = dtoOk.confirmPassword ∧
    envInsertFail.firebaseCreate = .ok { uid := "uid1", email := some "a@x.com" } ∧
    (envInsertFail.mongoSave ≠ .ok →
      (registerUser dtoOk envInsertFail).deletedUids = ["uid1"]) :=
  ⟨by decide, rfl, rfl, rfl,
    (registerUser_compensation dtoOk envInsertFail
      { uid := "uid1", email := some "a@x.com" } (by decide) rfl rfl rfl).2⟩

/-! ## Claim C3 — failed compensation is not surfaced as Internal -/

/-- Claim C3 counterexample: the profile insertion raises the duplicate-key
`ConflictException` and the compensating delete fails
(`deleteSucceeds := false`), yet the caller receives that
`ConflictException`, not `InternalServerErrorException` — the empty catch
block swallows the rollback failure and the original error is rethrown. -/
theorem registerUser_rollback_failure_counterexample :
    (registerUser dtoOk envRollbackFail).result =
      .error (.conflict "El username ya está en uso." none) ∧
    (registerUser dtoOk envRollbackFail).deletedUids = ["uid1"] := by
  constructor <;> rfl

/-- Claim C3 amended: when the compensating delete fails after a failed
profile insertion, the delete failure is swallowed and the caller receives
the profile-insertion error itself — `Conflict` for a duplicate key,
`Internal` only for other store failures. -/
theorem registerUser_rollback_failure_propagates_insert_error
    (dto : RegisterUserDto) (env : RegisterEnv) (record : UserRecord)
    (e : AppError)
    (hval : validateRegisterDto (transformDto dto) = [])
    (hfree : env.usernameTaken = false)
    (hpw : dto.password = dto.confirmPassword)
    (hfb : env.firebaseCreate = .ok record)
    (hdel : env.deleteSucceeds = false)
    (hins : createProfile record.uid (record.email.getD "") dto env.mongoSave =
      .error e) :
    (registerUser dto env).result = .error e := by
  simp [registerUser, hval, hfree, hpw, hfb, hins]

/-- Witness for the amended C3 at the concrete rollback-failure run. -/
theorem registerUser_rollback_failure_witness :
    validateRegisterDto (transformDto dtoOk) = [] ∧
    envRollbackFail.usernameTaken = false ∧
    dtoOk.password = dtoOk.confirmPassword ∧
    envRollbackFail.deleteSucceeds = false ∧
    createProfile "uid1" ((some "a@x.com").getD "") dtoOk envRollbackFail.mongoSave =
      .error (.conflict "El username ya está en uso." none) ∧
    (registerUser dtoOk envRollbackFail).result =
      .error (.conflict "El username ya está en uso." none) :=
  ⟨by decide, rfl, rfl, rfl, rfl,
    registerUser_rollback_failure_propagates_insert_error dtoOk envRollbackFail
      { uid := "uid1", email := some "a@x.com" }
      (.conflict "El username ya está en uso." none)
      (by decide) rfl rfl rfl rfl rfl⟩

/-! ## Claim C5 — validation order in registerUser -/

/-- Claim C5 counterexample: a payload whose passwords mismatch but whose
username is already taken fails `Conflict(username_taken)`, not
`InvalidInput` — the password/confirmPassword comparison is performed only
after the username-uniqueness pre-check, and is not part of the decorator
validation. -/
theorem registerUser_mismatch_after_uniqueness_counterexample :
    dtoMismatch.password ≠ dtoMismatch.confirmPassword ∧
    (registerUser dtoMismatch envTaken).result =
      .error (.conflict "El nombre de usuario ya está en uso."
        (some "username_taken")) := by
  constructor
  · decide
  · rfl

/-- Claim C5 amended: decorator validation (well-formed email, password
and confirmPassword length, username length — but not the
password/confirmPassword comparison) runs first and fails with
`BadRequestException` listing every violated constraint before anything
else; when it passes, the username-uniqueness pre-check runs next, so a
taken username yields `Conflict(username_taken)` even when the passwords
also mismatch. -/
theorem registerUser_validation_order (dto : RegisterUserDto) (env : RegisterEnv) :
    (validateRegisterDto (transformDto dto) ≠ [] →
      (registerUser dto env).result =
        .error (.badRequest "Validación fallida" none
          (validateRegisterDto (transformDto dto)))) ∧
    (validateRegisterDto (transformDto dto) = [] →
      (transformDto dto).username ≠ "" →
      env.usernameTaken = true →
      (registerUser dto env).result =
        .error (.conflict "El nombre de usuario ya está en uso."
          (some "username_taken"))) := by
  constructor
  · intro h
    simp [registerUser, h]
  · intro h hu ht
    simp [registerUser, h, hu, ht]

/-- Witness for the amended C5 at the concrete mismatching payload with a
taken username. -/
theorem registerUser_validation_order_witness :
    validateRegisterDto (transformDto dtoMismatch) = [] ∧
    (transformDto dtoMismatch).username ≠ "" ∧
    envTaken.usernameTaken = true ∧
    (registerUser dtoMismatch envTaken).result =
      .error (.conflict "El nombre de usuario ya está en uso."
        (some "username_taken")) :=
  ⟨by decide, by decide, rfl,
    (registerUser_validation_order dtoMismatch envTaken).2
      (by decide) (by decide) rfl⟩

/-! ## Claim C6 — the persisted schema has no TFA fields -/

/-- Claim C6 (refuted, code bug): the Mongoose `User` schema declares no
`tfaEnabled` (nor `isTfaEnabled`) boolean and no `tfaSecret` property at
all — its complete property list is spelled out below — although the auth
service reads and `$set`s `tfaSecret`/`isTfaEnabled` on profiles and the
users-service doc comments name these fields; with the schema as declared,
strict-mode Mongoose drops those updates and no persisted record carries
the TFA enrollment state. -/
theorem userSchema_lacks_tfa_fields :
    ¬ "tfaEnabled" ∈ userSchemaFieldNames ∧
    ¬ "isTfaEnabled" ∈ userSchemaFieldNames ∧
    ¬ "tfaSecret" ∈ userSchemaFieldNames ∧
    userSchemaFieldNames = ["firebaseUid", "email", "username", "fullName",
      "phone", "role", "resetPasswordCode", "resetPasswordExpires"] := by
  refine ⟨?_, ?_, ?_, rfl⟩ <;> decide

/-! ## Claim C7 — provider failure during resetPassword preserves the code -/

/-- Claim C7: when the profile exists, the supplied code matches the
stored one, the expiry is not past and the new passwords match, but the
Firebase password update fails, `resetPassword` fails with
`InternalServerErrorException` and the profile store is returned
unchanged — the reset code and expiry are not cleared. -/
theorem resetPassword_provider_failure_preserves_code
    (db : List UserProfile) (dto : PasswordResetDto) (now : Nat)
    (user : UserProfile)
    (hfind : findProfileByEmail db dto.email = some user)
    (hcode : user.resetPasswordCode = some dto.code)
    (hne : dto.code ≠ "")
    (hexp : now ≤ user.resetPasswordExpires.getD 0)
    (hpw : dto.newPassword = dto.confirmNewPassword) :
    resetPassword db dto now false =
      (.error (.internal "No se pudo actualizar la contraseña."), db) := by
  simp [resetPassword, hfind, hcode, jsFalsyOptStr, hne, hpw, Nat.not_lt.mpr hexp]

/-- Witness for C7: concrete store where the provider update fails and the
pending code survives. -/
theorem resetPassword_provider_failure_witness :
    findProfileByEmail [profileWithCode] resetDto.email = some profileWithCode ∧
    profileWithCode.resetPasswordCode = some resetDto.code ∧
    resetDto.code ≠ "" ∧
    (500 : Nat) ≤ profileWithCode.resetPasswordExpires.getD 0 ∧
    resetDto.newPassword = resetDto.confirmNewPassword ∧
    resetPassword [profileWithCode] resetDto 500 false =
      (.error (.internal "No se pudo actualizar la contraseña."), [profileWithCode]) :=
  ⟨rfl, rfl, by decide, by decide, rfl,
    resetPassword_provider_failure_preserves_code [profileWithCode] resetDto 500
      profileWithCode rfl rfl (by decide) (by decide) rfl⟩

/-! ## Claim C8 — TFA state machine guards -/

/-- Claim C8: `confirmTfaForUser` for a profile with no (truthy) stored
`tfaSecret` fails with the TFA-not-started `BadRequestException` and
leaves the store untouched, and `generateTfaSecretForUser` for a profile
with TFA already enabled fails with the already-enabled
`BadRequestException` and leaves the store untouched. -/
theorem tfa_state_machine_guards :
    (∀ (db : List UserProfile) (record : UserRecord) (code : String)
        (verifyOk : Bool) (profile : UserProfile),
      code ≠ "" →
      findOneByUid db record.uid = some profile →
      jsFalsyOptStr profile.tfaSecret = true →
      confirmTfaForUser db (some record) code verifyOk =
        (.error (.badRequest "TFA no iniciado para este usuario" none []), db)) ∧
    (∀ (db : List UserProfile) (record : UserRecord) (uri secret : String)
        (profile : UserProfile),
      findOneByUid db record.uid = some profile →
      profile.isTfaEnabled = some true →
      generateTfaSecretForUser db (some record) uri secret =
        (.error (.badRequest "TFA ya está habilitado para este usuario" none []), db)) := by
  constructor
  · intro db record code verifyOk profile hcode hfind hfalsy
    simp [confirmTfaForUser, hcode, hfind, hfalsy]
  · intro db record uri secret profile hfind henabled
    simp [generateTfaSecretForUser, hfind, henabled]

/-- Witness for C8: a profile with no secret rejects confirmation, and a
profile with TFA enabled rejects a new secret; the store is unchanged in
both runs. -/
theorem tfa_state_machine_guards_witness :
    ("123456" : String) ≠ "" ∧
    findOneByUid [profileAlice] "uid1" = some profileAlice ∧
    jsFalsyOptStr profileAlice.tfaSecret = true ∧
    confirmTfaForUser [profileAlice] (some { uid := "uid1" }) "123456" true =
      (.error (.badRequest "TFA no iniciado para este usuario" none []),
        [profileAlice]) ∧
    findOneByUid [profileEnabled] "uid1" = some profileEnabled ∧
    profileEnabled.isTfaEnabled = some true ∧
    generateTfaSecretForUser [profileEnabled] (some { uid := "uid1" }) "uri" "sec" =
      (.error (.badRequest "TFA ya está habilitado para este usuario" none []),
        [profileEnabled]) :=
  ⟨by decide, rfl, rfl,
    tfa_state_machine_guards.1 [profileAlice] { uid := "uid1" } "123456" true
      profileAlice (by decide) rfl rfl,
    rfl, rfl,
    tfa_state_machine_guards.2 [profileEnabled] { uid := "uid1" } "uri" "sec"
      profileEnabled rfl rfl⟩

/-! ## Claim C10 — login with a verified token but no profile -/

/-- Claim C10: when the bearer token verifies but no profile exists for
the uid, `login` does not fail: `user?.isTfaEnabled` is falsy, so an
exchange token is issued and the response is
`{tfaRequired := false, token := some t, authenticated := true}` — exactly
the response produced for a profile whose TFA flag is false. -/
theorem login_missing_profile_succeeds
    (db : List UserProfile) (record : UserRecord) (t : String)
    (hfind : findOneByUid db record.uid = none) :
    login db (some record) (.ok t) =
      .ok { tfaRequired := false, token := some t, authenticated := true } ∧
    (∀ (db2 : List UserProfile) (profile : UserProfile),
      findOneByUid db2 record.uid = some profile →
      profile.isTfaEnabled.getD false = false →
      login db2 (some record) (.ok t) =
        .ok { tfaRequired := false, token := some t, authenticated := true }) := by
  constructor
  · simp [login, hfind]
  · intro db2 profile hf hflag
    simp [login, hf, hflag]

/-- Witness for C10: empty store on one side, a TFA-disabled profile on
the other; both logins return the same successful response. -/
theorem login_missing_profile_succeeds_witness :
    findOneByUid [] "uid1" = none ∧
    login [] (some { uid := "uid1" }) (.ok "tok") =
      .ok { tfaRequired := false, token := some "tok", authenticated := true } ∧
    login [profileAlice] (some { uid := "uid1" }) (.ok "tok") =
      .ok { tfaRequired := false, token := some "tok", authenticated := true } :=
  ⟨rfl,
    (login_missing_profile_succeeds [] { uid := "uid1" } "tok" rfl).1,
    (login_missing_profile_succeeds [] { uid := "uid1" } "tok" rfl).2
      [profileAlice] profileAlice rfl rfl⟩

end DriveBackend
